import Mathlib

/-!
Verification of the routing core of the django-viewsets repository
(src/viewsets/routers.py and src/viewsets/viewsets.py) against its
natural-language specification.

The Python modules are shallowly embedded: attribute reads done through
getattr with a default become Option-valued fields, statements that can
raise become Except-valued computations, and CPython evaluation order is
preserved (in particular: the callee of a call is resolved before its
arguments, and mutations performed before a raise stay visible).
-/

/-- Python exceptions that the embedded code can raise. -/
inductive PyError where
  | nameError (n : String)
  | attributeError (obj attr : String)
  | assertionError (msg : String)
  | notImplementedError (msg : String)
deriving Repr, DecidableEq

/-- Models `queryset.model._meta.object_name` as read by
SimpleRouter.get_default_basename (routers.py line 102): the attribute
chain below `queryset` is collapsed into the one string the router reads. -/
structure Queryset where
  model_object_name : String
deriving Repr, DecidableEq

/-- One entry of a handler-group class's `_actions` list as the router-facing
model needs it: the handler's `__name__` and its `detail` flag. -/
structure ActionDecl where
  name : String
  detail : Bool
deriving Repr, DecidableEq

/-- The attributes a router reads off a registered viewset class.  Each
Option field models a getattr with a default: `none` is an absent (or, for
`lookup_url_kwarg`, a None-valued) attribute.  `actions` carries the
declared extra actions of the class; note that no viewset class in
viewsets.py defines the `get_extra_actions` method through which
routers.py line 117 would try to read them. -/
structure Viewset where
  queryset : Option Queryset
  lookup_field : Option String
  lookup_url_kwarg : Option String
  lookup_value_regex : Option String
  actions : List ActionDecl
deriving Repr, DecidableEq

/-- One element of BaseRouter.registry: the `(prefix, viewset, basename)`
tuple appended by BaseRouter.register (routers.py line 44). -/
structure RegistryEntry where
  pfx : String
  viewset : Viewset
  basename : String
deriving Repr, DecidableEq

/-- The mutable state of a router: `registry` (routers.py line 39) and the
`_urls` cache attribute, where `none` models the attribute being absent
(deleted or never set) and `some u` models `self._urls = u`.  `U` is the
type of the computed url list (BaseRouter.get_urls is an abstract
extension point). -/
structure RouterState (U : Type) where
  registry : List RegistryEntry
  cached_urls : Option U
deriving Repr, DecidableEq

/-- The assertion message of SimpleRouter.get_default_basename
(routers.py lines 96-100). -/
def basenameAssertMsg : String :=
  "`basename` argument not specified, and could not automatically determine the name from the viewset, as it does not have a `.queryset` attribute."

/-- SimpleRouter.get_default_basename (routers.py lines 89-102): reads the
viewset's `queryset` attribute with default None, asserts it is not None
(an AssertionError at registration time when the attribute is missing),
and otherwise lower-cases the model's object name. -/
def get_default_basename (viewset : Viewset) : Except PyError String :=
  match viewset.queryset with
  | none => .error (.assertionError basenameAssertMsg)
  | some q => .ok q.model_object_name.toLower

/-- BaseRouter.register (routers.py lines 41-48), parameterised by the
concrete router's get_default_basename.  CPython order is kept: the
basename is resolved first (a raise there propagates before any mutation),
then the entry is appended, then the `_urls` cache attribute is deleted if
present.  The returned pair is (outcome, post-call state); on a raise the
post-call state is the state at the point of the raise. -/
def register {U : Type} (gdb : Viewset → Except PyError String)
    (r : RouterState U) (pfx : String) (viewset : Viewset)
    (basename : Option String) : Except PyError Unit × RouterState U :=
  match (match basename with
         | none => gdb viewset
         | some b => .ok b) with
  | .error e => (.error e, r)
  | .ok b =>
    let r1 : RouterState U :=
      { r with registry := r.registry ++ [⟨pfx, viewset, b⟩] }
    let r2 : RouterState U :=
      if r1.cached_urls.isSome then { r1 with cached_urls := none } else r1
    (.ok (), r2)

/-- The BaseRouter.urls property (routers.py lines 63-67), parameterised by
the concrete router's get_urls method `g`: if the `_urls` attribute is
absent it is computed and stored (a raise in get_urls propagates and
leaves the cache absent); then the cached value is returned together with
the state after the read. -/
def urls {U : Type} (g : List RegistryEntry → Except PyError U)
    (r : RouterState U) : Except PyError (RouterState U × U) :=
  match r.cached_urls with
  | some u => .ok (r, u)
  | none =>
    match g r.registry with
    | .error e => .error e
    | .ok u => .ok ({ r with cached_urls := some u }, u)

/-- SimpleRouter.get_lookup_regex (routers.py lines 135-150): reads
`lookup_field` (default "pk"), `lookup_url_kwarg` (getattr default None,
then Python `or` falls back to lookup_field on None or empty string) and
`lookup_value_regex` (default matching neither / nor .), and formats
the named-capture-group template; str.format substitutes each field once
without rescanning, hence plain concatenation. -/
def get_lookup_regex (viewset : Viewset) (lookupPfx : String) : String :=
  let lookup_field := viewset.lookup_field.getD "pk"
  let lookup_url_kwarg :=
    match viewset.lookup_url_kwarg with
    | some s => if s = "" then lookup_field else s
    | none => lookup_field
  let lookup_value := viewset.lookup_value_regex.getD "[^/.]+"
  "(?P<" ++ lookupPfx ++ lookup_url_kwarg ++ ">" ++ lookup_value ++ ")"

/-- C3: calling register with basename omitted on a viewset without a
queryset attribute fails at registration time with the configuration
error (realised in the source as the AssertionError of
get_default_basename) and performs no mutation; calling register with an
explicit basename always succeeds, whatever the viewset exposes. -/
theorem c3_basename_required_or_derived {U : Type} (r : RouterState U)
    (pfx : String) (vs : Viewset) (hq : vs.queryset = none) :
    register get_default_basename r pfx vs none
      = (.error (.assertionError basenameAssertMsg), r) ∧
    (∀ vs2 : Viewset, ∀ b : String,
      (register get_default_basename r pfx vs2 (some b)).1 = .ok ()) := by
  constructor
  · simp [register, get_default_basename, hq]
  · intro vs2 b
    simp [register]

/-- Witness for c3_basename_required_or_derived at a concrete router state
and a concrete viewset without a queryset. -/
theorem c3_witness :
    register (U := Nat) get_default_basename ⟨[], none⟩ "qsless"
        ⟨none, none, none, none, []⟩ none
      = (.error (.assertionError basenameAssertMsg), ⟨[], none⟩) :=
  (c3_basename_required_or_derived ⟨[], none⟩ "qsless"
    ⟨none, none, none, none, []⟩ rfl).1

/-- C6: whenever register fails, the router state (registry and url cache
alike) is exactly what it was before the call: the basename is resolved
before the append, so a failed call leaves nothing half-registered. -/
theorem c6_register_no_partial_commit {U : Type} (r : RouterState U)
    (pfx : String) (vs : Viewset) (basename : Option String) (e : PyError)
    (h : (register get_default_basename r pfx vs basename).1 = .error e) :
    (register get_default_basename r pfx vs basename).2 = r := by
  unfold register at h ⊢
  cases basename with
  | none =>
    cases hg : get_default_basename vs with
    | error e2 => simp [hg]
    | ok b => simp [hg] at h
  | some b => simp at h

/-- Witness for c6_register_no_partial_commit: a concrete failing register
call leaves the concrete starting state untouched. -/
theorem c6_witness :
    (register (U := Nat) get_default_basename ⟨[], some 7⟩ "rollback"
        ⟨none, none, none, none, []⟩ none).2 = ⟨[], some 7⟩ :=
  c6_register_no_partial_commit ⟨[], some 7⟩ "rollback"
    ⟨none, none, none, none, []⟩ none
    (.assertionError basenameAssertMsg) rfl

/-- C2: a successful urls read caches the computed sequence; a further
read (with an arbitrary get_urls, showing the computation is not re-run)
returns the identical pair unchanged; a subsequent successful register
empties the cache and appends exactly one entry, so the next read computes
from the enlarged registry. -/
theorem c2_urls_cached_until_register {U : Type}
    (g g2 : List RegistryEntry → Except PyError U)
    (gdb : Viewset → Except PyError String)
    (r r1 : RouterState U) (u : U)
    (h : urls g r = .ok (r1, u)) :
    (urls g2 r1 = .ok (r1, u)) ∧
    (∀ pfx vs basename r2,
      register gdb r1 pfx vs basename = (.ok (), r2) →
      r2.cached_urls = none ∧
      (∃ b, r2.registry = r1.registry ++ [⟨pfx, vs, b⟩]) ∧
      (∀ u2, g2 r2.registry = .ok u2 →
        urls g2 r2 = .ok ({ r2 with cached_urls := some u2 }, u2))) := by
  have hc : r1.cached_urls = some u := by
    unfold urls at h
    cases hr : r.cached_urls with
    | some u0 =>
      simp [hr] at h
      simp [← h.1, hr, h.2]
    | none =>
      simp [hr] at h
      cases hg : g r.registry with
      | error e => simp [hg] at h
      | ok u0 => simp [hg] at h; simp [← h.1, h.2]
  refine ⟨by simp [urls, hc], ?_⟩
  intro pfx vs basename r2 hreg
  unfold register at hreg
  cases hb : (match basename with
              | none => gdb vs
              | some b => Except.ok b) with
  | error e => rw [hb] at hreg; simp at hreg
  | ok b =>
    rw [hb] at hreg
    simp only [Prod.mk.injEq, true_and] at hreg
    have hr2 : r2 = ⟨r1.registry ++ [⟨pfx, vs, b⟩], none⟩ := by
      rw [← hreg]
      simp [hc]
    refine ⟨by rw [hr2], ⟨b, by rw [hr2]⟩, ?_⟩
    intro u2 hg2
    rw [hr2] at hg2 ⊢
    simp [urls, hg2]

/-- Witness for c2_urls_cached_until_register: a concrete first read on an
empty-cache router caches the computed value and re-reading returns the
identical result. -/
theorem c2_witness :
    urls (U := Nat) (fun _ => .ok 5) ⟨[], some 5⟩ = .ok (⟨[], some 5⟩, 5) :=
  (c2_urls_cached_until_register (fun _ => .ok 5) (fun _ => .ok 5)
    get_default_basename ⟨[], none⟩ ⟨[], some 5⟩ 5 rfl).1

/-- C5: the lookup-fragment resolver is total and returns the
named-capture fragment built from lookupPfx, the effective url kwarg and
the effective value regex, with lookup_field defaulting to "pk",
lookup_url_kwarg defaulting to lookup_field, lookup_value_regex
defaulting to the class excluding / and . — in particular all-defaults
yields the documented fragment. -/
theorem c5_lookup_regex_formula (q : Option Queryset) (acts : List ActionDecl)
    (lookupPfx fld kw val : String) (hkw : kw ≠ "") :
    (get_lookup_regex ⟨q, some fld, some kw, some val, acts⟩ lookupPfx
       = "(?P<" ++ lookupPfx ++ kw ++ ">" ++ val ++ ")") ∧
    (get_lookup_regex ⟨q, some fld, none, some val, acts⟩ lookupPfx
       = "(?P<" ++ lookupPfx ++ fld ++ ">" ++ val ++ ")") ∧
    (get_lookup_regex ⟨q, none, none, none, acts⟩ lookupPfx
       = "(?P<" ++ lookupPfx ++ "pk" ++ ">" ++ "[^/.]+" ++ ")") ∧
    (get_lookup_regex ⟨q, none, none, none, acts⟩ "" = "(?P<pk>[^/.]+)") := by
  refine ⟨?_, ?_, ?_, ?_⟩ <;> simp [get_lookup_regex, hkw]

/-- Witness for c5_lookup_regex_formula: the all-defaults fragment at the
empty lookup prefix. -/
theorem c5_witness :
    get_lookup_regex ⟨none, none, none, none, []⟩ "" = "(?P<pk>[^/.]+)" :=
  (c5_lookup_regex_formula none [] "" "pk" "slug" "[0-9]+"
    (by decide)).2.2.2

/-- The Route namedtuple (routers.py line 31): fields url, name, detail,
initkwargs and no others — in particular no `mapping` field, although
get_routes reads one. -/
structure Route where
  url : String
  name : String
  detail : Bool
  initkwargs : List (String × String)
deriving Repr, DecidableEq

/-- SimpleRouter.routes (routers.py lines 75-83): the single built-in list
route template. -/
def simpleRoutes : List Route :=
  [{ url := "^\x7bprefix\x7d\x7btrailing_slash\x7d$", name := "{basename}-list",
     detail := false, initkwargs := [("suffix", "List")] }]

/-- The names bound at module level in src/viewsets/routers.py: the module's one
imported name is `namedtuple` (line 27) and it defines
Route, BaseRouter and SimpleRouter.  In particular `flatten`,
`ImproperlyConfigured`, `mapping` and `re_path` are unbound. -/
def routersModuleGlobals : List String :=
  ["namedtuple", "Route", "BaseRouter", "SimpleRouter"]

/-- CPython global-name resolution in the routers module: loading an
unbound name raises NameError. -/
def resolveGlobal (n : String) : Except PyError Unit :=
  if routersModuleGlobals.contains n then .ok () else .error (.nameError n)

/-- SimpleRouter.get_routes (routers.py lines 104-133).  Its first
statement evaluates `list(flatten([route.mapping.values() ...]))`; CPython
resolves the callee name `flatten` before building its argument, and
`flatten` is bound nowhere in the module, so every call raises
NameError("flatten").  Everything after that first resolution is
unreachable: the comprehension would read `route.mapping`, a field the
Route namedtuple does not declare (line 31); `viewset.get_extra_actions()`
is a method no viewset class defines; the reserved-name check would raise
the unbound name `ImproperlyConfigured`; and the final `return
self.routes` discards the partitioned detail/list actions. -/
def get_routes (viewset : Viewset) : Except PyError (List Route) := do
  let _ ← resolveGlobal "flatten"
  let _ ← (Except.error (.attributeError "Route" "mapping") :
             Except PyError (List String))
  let _ ← (Except.error (.attributeError "Viewset" "get_extra_actions") :
             Except PyError (List ActionDecl))
  pure simpleRoutes

/-- One entry of the url pattern list get_urls tries to build:
`re_path(regex, view, name=name)` reduced to the data the claims speak
about. -/
structure UrlEntry where
  regex : String
  name : String
deriving Repr, DecidableEq

/-- Left-to-right single-pass substitution of one placeholder, the scan
fuelled by the input length (each step consumes at least one character, so
the fuel never runs out on the initial call). -/
def substAux (ph sub : List Char) : Nat → List Char → List Char
  | 0, l => l
  | _ + 1, [] => []
  | n + 1, c :: cs =>
      if ph.isPrefixOf (c :: cs) then
        sub ++ substAux ph sub n (List.drop ph.length (c :: cs))
      else
        c :: substAux ph sub n cs

/-- Substitution of one format field: str.format replaces each occurrence
of the field with its value and does not rescan the substituted text. -/
def pySubst (s ph sub : String) : String :=
  ⟨substAux ph.data sub.data s.data.length s.data⟩

/-- Python str.format scanning for the route url templates: one
left-to-right pass over the template; at each position a matching field
is substituted and the scan continues after the placeholder, so
substituted text is never rescanned.  Fuelled by the template length
(each step consumes at least one template character). -/
def formatAux (fields : List (List Char × List Char)) :
    Nat → List Char → List Char
  | 0, l => l
  | _ + 1, [] => []
  | n + 1, c :: cs =>
      match fields.find? (fun p => p.1.isPrefixOf (c :: cs)) with
      | some p => p.2 ++ formatAux fields n (List.drop p.1.length (c :: cs))
      | none => c :: formatAux fields n cs

/-- str.format on a route url template with the three keyword fields used
by get_urls (routers.py lines 165-169). -/
def format_url (url pfx lookup trailing : String) : String :=
  ⟨formatAux
    [("\x7bprefix\x7d".data, pfx.data), ("{lookup}".data, lookup.data),
     ("{trailing_slash}".data, trailing.data)]
    url.data.length url.data⟩

/-- Python string slicing s[:n] — the first n code points. -/
def pyTake (s : String) (n : Nat) : String :=
  ⟨s.data.take n⟩

/-- Python string slicing s[n:] — everything after the first n code
points. -/
def pyDrop (s : String) (n : Nat) : String :=
  ⟨s.data.drop n⟩

/-- The leading-slash special case of SimpleRouter.get_urls (routers.py
lines 171-176): with an empty registration prefix, a formatted regex whose
first two characters are the anchor-plus-slash sequence loses the slash;
otherwise the regex is kept unchanged. -/
def strip_leading_slash (pfx regex : String) : String :=
  if pfx = "" ∧ pyTake regex 2 = "^/" then "^" ++ pyDrop regex 2 else regex

/-- SimpleRouter.get_urls (routers.py lines 152-188): for each registry
entry it computes the lookup fragment, calls get_routes (which raises, see
get_routes), and the per-route body — reachable only if get_routes
returned — would itself fail at `viewset.as_view` (no viewset class
defines as_view; the call also names the unbound `mapping`, and the append
names the unbound `re_path`).  With an empty registry the loop never runs
and the empty list is returned. -/
def get_urls (trailing : String) (registry : List RegistryEntry) :
    Except PyError (List UrlEntry) :=
  registry.foldlM
    (fun ret entry => do
      let lookup := get_lookup_regex entry.viewset ""
      let routes ← get_routes entry.viewset
      routes.foldlM
        (fun ret2 route => do
          let regex :=
            strip_leading_slash entry.pfx
              (format_url route.url entry.pfx lookup trailing)
          let _ ← (Except.error (.attributeError "Viewset" "as_view") :
                     Except PyError Unit)
          pure (ret2 ++
            [UrlEntry.mk regex (pySubst route.name "{basename}" entry.basename)]))
        ret)
    []

/-- C1: registering prefix "widgets" with a viewset declaring one detail
action "activate" does not yield the claimed route table: get_routes
raises NameError("flatten") on its first statement, so reading the urls of
the router raises too and neither the widget-list route nor the
widget-activate route is ever generated. -/
theorem c1_widgets_route_table_not_built :
    get_routes ⟨some ⟨"Widget"⟩, some "pk", none, none, [⟨"activate", true⟩]⟩
      = .error (.nameError "flatten") ∧
    get_urls "/"
        [⟨"widgets", ⟨some ⟨"Widget"⟩, some "pk", none, none,
          [⟨"activate", true⟩]⟩, "widget"⟩]
      = .error (.nameError "flatten") := by
  constructor <;> rfl

/-- C4: for a viewset whose declared action is named "get" — a reserved
HTTP-verb dispatch slot — building the route table does fail, but with
NameError("flatten") raised before the reserved-name check is reached, not
with the configuration error naming the offending handler that the check
(itself referencing the unbound name ImproperlyConfigured) was meant to
raise. -/
theorem c4_reserved_verb_check_unreachable :
    get_routes ⟨none, none, none, none, [⟨"get", false⟩]⟩
      = .error (.nameError "flatten") := by
  rfl

/-- C8: the route-table building slash special case — when the
registration prefix is empty and the formatted regex opens with the
anchor-plus-slash pair, the emitted regex is the anchor followed by the
rest; with any non-empty prefix the regex is emitted unchanged. -/
theorem c8_strip_leading_slash (pfx regex : String) :
    (pfx = "" → pyTake regex 2 = "^/" →
      strip_leading_slash pfx regex = "^" ++ pyDrop regex 2) ∧
    (pfx ≠ "" → strip_leading_slash pfx regex = regex) := by
  constructor
  · intro h1 h2
    simp [strip_leading_slash, h1, h2]
  · intro h1
    simp [strip_leading_slash, h1]

/-- Witness for c8_strip_leading_slash: the list-route regex formatted with
the empty prefix loses its leading slash. -/
theorem c8_witness :
    strip_leading_slash "" (format_url "^\x7bprefix\x7d\x7btrailing_slash\x7d$" "" "" "/")
      = "^$" :=
  ((c8_strip_leading_slash "" (format_url "^\x7bprefix\x7d\x7btrailing_slash\x7d$" "" "" "/")).1
    rfl (by decide)).trans (by decide)

/-- A Python function object as the action decorator (viewsets.py lines
72-106) sees it: its `__name__`, its `__doc__` (Python None modelled as
the empty string), its optional `__self__` attribute — present only on
bound methods, absent on the plain functions a class body defines — and
the attributes the decorator assigns.  `kwargs` models the dict attribute
as a partial map. -/
structure PyFunc where
  name : String
  doc : String
  boundSelf : Option String
  detail : Bool
  url_path : String
  url_name : String
  kwargs : String → Option String

/-- The empty Python dict as a partial map. -/
def emptyKwargs : String → Option String := fun _ => none

/-- Python dict item assignment d[k] = v. -/
def dictSet (d : String → Option String) (k v : String) :
    String → Option String :=
  fun x => if x = k then some v else d x

/-- Python str.capitalize: first code point upper-cased, the rest
lower-cased. -/
def pyCapitalize (s : String) : String :=
  match s.data with
  | [] => ""
  | c :: cs => ⟨c.toUpper :: cs.map Char.toLower⟩

/-- Modelled from the external collaborator django.forms.utils.pretty_name
used at viewsets.py line 99: empty name maps to the empty string,
otherwise underscores become spaces and the result is capitalized. -/
def pretty_name (s : String) : String :=
  if s = "" then "" else pyCapitalize (pySubst s "_" " ")

/-- The arguments of the action decorator factory (viewsets.py line 72):
detail, url_path and url_name (None modelled as none) and the residual
keyword options. -/
structure ActionArgs where
  detail : Bool
  url_path : Option String
  url_name : Option String
  kwargs : String → Option String

/-- What applying the decorator leaves behind: the (mutated) function
object, the `_actions` list it tried to append to, and the outcome of the
call. -/
structure DecorationResult where
  func : PyFunc
  actions : List PyFunc
  outcome : Except PyError Unit

/-- The decorator returned by action(...) (viewsets.py lines 92-106),
applied to a function while `actions` is the list object reachable as
`func.__self__.__class__._actions`.  In source order: detail is stored;
url_path falls back to `__name__` when the argument is None or empty
(Python truthiness); url_name falls back to `__name__` with underscores
replaced by hyphens; the decorator's kwargs dict becomes the function's
kwargs attribute, given a default "name" entry when absent and then
unconditionally a "description" entry from `__doc__`; finally line 103
reads `func.__self__`, which raises AttributeError for a plain function,
so the append and the return are only reached for a bound method. -/
def action (args : ActionArgs) (func : PyFunc) (actions : List PyFunc) :
    DecorationResult :=
  let f1 : PyFunc := { func with detail := args.detail }
  let f2 : PyFunc := { f1 with url_path :=
    match args.url_path with
    | some s => if s = "" then func.name else s
    | none => func.name }
  let f3 : PyFunc := { f2 with url_name :=
    match args.url_name with
    | some s => if s = "" then pySubst func.name "_" "-" else s
    | none => pySubst func.name "_" "-" }
  let kw1 := args.kwargs
  let kw2 := if (kw1 "name").isSome then kw1
             else dictSet kw1 "name" (pretty_name func.name)
  let kw3 := dictSet kw2 "description" func.doc
  let f4 : PyFunc := { f3 with kwargs := kw3 }
  match func.boundSelf with
  | none =>
    { func := f4, actions := actions,
      outcome := .error (.attributeError "function" "__self__") }
  | some _ =>
    { func := f4, actions := actions ++ [f4], outcome := .ok () }

/-- C7: the metadata the decorator puts on the method — url_path is the
supplied one, or else (None supplied, or the empty string, which Python
truthiness also sends to the fallback) the method's own name; url_name is
the supplied one or else the method's name with underscores replaced by
hyphens; and the kwargs "description" entry is always the method's
documentation string, whatever description the caller supplied. -/
theorem c7_action_metadata (args : ActionArgs) (func : PyFunc)
    (acts : List PyFunc) :
    ((args.url_path = none →
        (action args func acts).func.url_path = func.name) ∧
     (∀ s : String, args.url_path = some s → s ≠ "" →
        (action args func acts).func.url_path = s)) ∧
    ((args.url_name = none →
        (action args func acts).func.url_name = pySubst func.name "_" "-") ∧
     (∀ s : String, args.url_name = some s → s ≠ "" →
        (action args func acts).func.url_name = s)) ∧
    (action args func acts).func.kwargs "description" = some func.doc := by
  refine ⟨⟨?_, ?_⟩, ⟨?_, ?_⟩, ?_⟩
  · intro h
    cases hb : func.boundSelf <;> simp [action, h, hb]
  · intro s h hs
    cases hb : func.boundSelf <;> simp [action, h, hs, hb]
  · intro h
    cases hb : func.boundSelf <;> simp [action, h, hb]
  · intro s h hs
    cases hb : func.boundSelf <;> simp [action, h, hs, hb]
  · cases hb : func.boundSelf <;> simp [action, dictSet, hb]

/-- Witness for c7_action_metadata: a concrete decoration with an explicit
url_path takes that url_path. -/
theorem c7_witness :
    (action ⟨true, some "activate", none, emptyKwargs⟩
        ⟨"make_active", "Activate the widget.", some "WidgetViewSet",
         false, "", "", emptyKwargs⟩ []).func.url_path = "activate" :=
  (c7_action_metadata ⟨true, some "activate", none, emptyKwargs⟩
      ⟨"make_active", "Activate the widget.", some "WidgetViewSet",
       false, "", "", emptyKwargs⟩ []).1.2
    "activate" rfl (by decide)

/-- C9: applying the decorator to an ordinary function — one whose
`__self__` attribute is absent — raises AttributeError at the line that
reads func.__self__, so the decoration never completes and the `_actions`
registry it would have appended to is left untouched. -/
theorem c9_plain_function_decoration_fails (args : ActionArgs)
    (func : PyFunc) (acts : List PyFunc) (h : func.boundSelf = none) :
    (action args func acts).outcome
      = .error (.attributeError "function" "__self__") ∧
    (action args func acts).actions = acts := by
  constructor <;> simp [action, h]

/-- Witness for c9_plain_function_decoration_fails: decorating a concrete
plain function appends nothing. -/
theorem c9_witness :
    (action ⟨false, none, none, emptyKwargs⟩
        ⟨"ping", "", none, false, "", "", emptyKwargs⟩ []).actions = [] :=
  (c9_plain_function_decoration_fails ⟨false, none, none, emptyKwargs⟩
    ⟨"ping", "", none, false, "", "", emptyKwargs⟩ [] rfl).2

/-- The three classes of viewsets.py: ViewSetMixin (line 109) and its two
subclasses ViewSet (line 200) and ModelViewSet (line 211), neither of
which redefines `_actions`. -/
inductive VSClass where
  | viewSetMixin
  | viewSet
  | modelViewSet
deriving Repr, DecidableEq

/-- The single list object allocated when the class body of ViewSetMixin
evaluates `_actions = []` (viewsets.py line 121), as a heap reference. -/
def actionsRef : Nat := 0

/-- The per-class `__dict__` entry for `_actions`: only ViewSetMixin's
class body binds it; the class bodies of ViewSet and ModelViewSet bind no
`_actions` of their own. -/
def classActionsBinding : VSClass → Option Nat
  | .viewSetMixin => some actionsRef
  | .viewSet => none
  | .modelViewSet => none

/-- The method resolution order of each class (below it only `object`,
which carries no `_actions` either). -/
def mro : VSClass → List VSClass
  | .viewSetMixin => [.viewSetMixin]
  | .viewSet => [.viewSet, .viewSetMixin]
  | .modelViewSet => [.modelViewSet, .viewSetMixin]

/-- Python class-attribute resolution for `_actions`: the first class
along the MRO whose own `__dict__` binds it supplies the reference. -/
def resolveActionsRef (c : VSClass) : Option Nat :=
  (mro c).findSome? classActionsBinding

/-- The heap of list objects, mapping a reference to the current contents
of the list stored there. -/
def PyHeap : Type := Nat → List PyFunc

/-- Reading `cls._actions`: resolve the reference, then dereference. -/
def readActions (h : PyHeap) (c : VSClass) : Option (List PyFunc) :=
  (resolveActionsRef c).map h

/-- `cls._actions.append(f)` (what viewsets.py line 103 performs through
`func.__self__.__class__`): in-place growth of the list object the class
resolves `_actions` to; classes that resolve to the same reference all
observe the growth. -/
def appendAction (h : PyHeap) (c : VSClass) (f : PyFunc) : PyHeap :=
  match resolveActionsRef c with
  | some r => fun x => if x = r then h r ++ [f] else h x
  | none => h

/-- One entry of the list ViewSetMixin.get_urls tries to build, reduced
to the view it would be built from. -/
structure PathEntry where
  view : PyFunc

/-- The names bound at module level in src/viewsets/viewsets.py: the four
imported names (lines 25-29) and the module's own definitions.  The host
framework's url-pattern constructor `path` (like `render`) is never
imported, so loading it raises NameError. -/
def viewsetsModuleGlobals : List String :=
  ["signature", "pretty_name", "classonlymethod", "View", "action",
   "ViewSetMixin", "ViewSet", "ModelViewSet"]

/-- CPython global-name resolution in the viewsets module. -/
def resolveViewsetsGlobal (n : String) : Except PyError Unit :=
  if viewsetsModuleGlobals.contains n then .ok () else .error (.nameError n)

/-- The body of the get_urls comprehension for one enumerated view
(viewsets.py lines 191-195): CPython resolves the callee name `path`
before evaluating any argument, and `path` is unbound in the module, so
the body raises NameError("path") for every view it reaches.  Were `path`
bound, the argument expressions would next call the nonexistent methods
self.get_response and self.get_view_name.  The entry construction after
the (dead) resolution is reduced to the view itself. -/
def build_path_entry (acc : List PathEntry) (view : PyFunc) :
    Except PyError (List PathEntry) := do
  let _ ← resolveViewsetsGlobal "path"
  pure (acc ++ [⟨view⟩])

/-- ViewSetMixin.get_urls (viewsets.py lines 184-197): after the total
get_base_path() call (line 189), the comprehension enumerates
`self._actions` — the list object the class resolves `_actions` to — and
runs build_path_entry once per view.  Recorded faithfully: the
comprehension as printed does not parse (a comma is missing before the
name argument and a stray comma stands before `for`), so the module as
shipped already fails at import; the embedding takes the evident
comprehension and keeps CPython name resolution, under which the body
raises NameError("path") at the first view, while an empty `_actions`
yields the empty list without ever evaluating the body. -/
def vs_get_urls (h : PyHeap) (c : VSClass) : Except PyError (List PathEntry) :=
  match resolveActionsRef c with
  | some r => (h r).foldlM build_path_entry []
  | none => .error (.attributeError "ViewSetMixin" "_actions")

/-- A nonempty enumeration dies at its first view: the comprehension body
raises NameError("path") before producing any entry. -/
theorem foldlM_build_path_entry_ne (l : List PyFunc) (acc : List PathEntry)
    (hne : l ≠ []) :
    l.foldlM build_path_entry acc = .error (.nameError "path") := by
  cases l with
  | nil => exact absurd rfl hne
  | cons x xs => rfl

/-- C10: the sharing half of the claim is real — `_actions` is the one
list bound by ViewSetMixin's class body, ViewSet and ModelViewSet bind
none of their own, all three classes resolve `_actions` to the same list
object, and an element appended through any one class is read back
through every class — but the claimed observability through get_urls
fails on the code: get_urls enumerates that same shared list, yet its
per-view body raises NameError("path"), so after any append every class's
get_urls raises instead of returning entries; only an empty registry
yields a (necessarily empty) list. -/
theorem c10_shared_registry_but_get_urls_raises :
    (resolveActionsRef .viewSet = some actionsRef ∧
     resolveActionsRef .modelViewSet = some actionsRef ∧
     resolveActionsRef .viewSetMixin = some actionsRef ∧
     classActionsBinding .viewSet = none ∧
     classActionsBinding .modelViewSet = none) ∧
    (∀ (h : PyHeap) (c c2 : VSClass) (f : PyFunc),
      readActions (appendAction h c f) c2 = some (h actionsRef ++ [f])) ∧
    (∀ (h : PyHeap) (c c2 : VSClass) (f : PyFunc),
      vs_get_urls (appendAction h c f) c2 = .error (.nameError "path")) ∧
    (∀ c : VSClass, vs_get_urls (fun _ => []) c = .ok []) := by
  refine ⟨⟨rfl, rfl, rfl, rfl, rfl⟩, ?_, ?_, ?_⟩
  · intro h c c2 f
    cases c <;> cases c2 <;>
      simp [readActions, appendAction, resolveActionsRef, mro,
        classActionsBinding, actionsRef]
  · intro h c c2 f
    cases c <;> cases c2 <;>
      exact foldlM_build_path_entry_ne (h actionsRef ++ [f]) [] (by simp)
  · intro c
    cases c <;> rfl
